import Mathlib

/-!
Shallow embedding of the Indico excerpt consisting of
`indico/modules/rb/schemas.py` (marshmallow serialization schemas of the
room-booking subsystem) and `indico/modules/events/reminders/forms.py`
(the event reminder form).

External library objects (datetimes, ORM model methods, the session) are
modelled explicitly:
  * a Python `datetime` is an `Int` counting minutes since the Unix epoch;
    `.date()` is floor division by 1440 and `.weekday()` follows the Python
    convention (Monday = 0, and 1970-01-01 was a Thursday);
  * the session user is an `Option RBUser` (`none` when there is no
    logged-in user);
  * ORM model methods used by the schemas (`can_see_details`,
    `room.can_manage`, the `can_*` permission methods) are carried as
    function-valued fields of the model structures, with the trailing
    `Bool` argument standing for `allow_admin`.
-/

/-- A Python `datetime`, as minutes since the Unix epoch. -/
abbrev PyDateTime := Int

/-- `datetime.date()` as an ordinal day: floor division of minutes by 1440. -/
def pyDate (dt : PyDateTime) : Int := Int.fdiv dt 1440

/-- `datetime.weekday()`: Monday = 0 .. Sunday = 6; 1970-01-01 (day 0) was a
Thursday, hence the offset 3. -/
def pyWeekday (dt : PyDateTime) : Nat := ((Int.fdiv dt 1440 + 3).emod 7).toNat

/-- `RepeatFrequency` enum from `indico.modules.rb.models.reservations`. -/
inductive RepeatFrequency where
  | never
  | day
  | week
  | month
deriving DecidableEq

/-- Modelled from the spec: `WEEKDAYS` of `indico.modules.rb.util` (the module
is not part of the excerpt), the tuple of weekday short names indexed by
the Python `weekday()` numbering. -/
def WEEKDAYS : List String := ["mon", "tue", "wed", "thu", "fri", "sat", "sun"]

/-- `WEEKDAYS[dt.weekday()]`: the index is always < 7 so the default is never
used. -/
def weekdayName (dt : PyDateTime) : String := WEEKDAYS.getD (pyWeekday dt) ("")

/-- A user as far as the schemas look at one; `is_rb_admin` carries the
outcome of `rb_is_admin` for that user. -/
structure RBUser where
  id : Nat
  full_name : String
  is_rb_admin : Bool
deriving DecidableEq

/-- Modelled from the spec: `rb_is_admin` of `indico.modules.rb.util` (not in
the excerpt), deciding whether the session user is a room-booking admin;
`false` when nobody is logged in. -/
def rb_is_admin : Option RBUser → Bool
  | some u => u.is_rb_admin
  | none => false

/-- A `ReservationEditLog` row restricted to the fields the schema dumps. -/
structure ReservationEditLog where
  id : Nat
  timestamp : Int
  info : List String
  user_name : String
deriving DecidableEq

/-- A `Reservation` row together with the model methods the schemas call.
The `Option RBUser` argument of each method is the (possibly absent) session
user; the trailing `Bool` of the `can_*` methods is `allow_admin`. -/
structure Reservation where
  booked_for_name : String
  repeat_frequency : RepeatFrequency
  repeat_interval : Nat
  recurrence_weekdays : Option (List String)
  start_dt : PyDateTime
  booked_for_user : RBUser
  created_by_user : RBUser
  edit_logs : List ReservationEditLog
  internal_note : String
  repetition : RepeatFrequency × Nat × Option (List String)
  can_see_details : Option RBUser → Bool
  room_can_manage : Option RBUser → Bool
  can_accept : Option RBUser → Bool → Bool
  can_cancel : Option RBUser → Bool → Bool
  can_delete : Option RBUser → Bool → Bool
  can_edit : Option RBUser → Bool → Bool
  can_reject : Option RBUser → Bool → Bool

/-- A `ReservationOccurrence` with the methods used by
`ReservationOccurrenceSchemaWithPermissions`. -/
structure ReservationOccurrence where
  can_cancel : Option RBUser → Bool → Bool
  can_reject : Option RBUser → Bool → Bool

/-- A `Blocking` with the methods used by `BlockingSchema._get_permissions`. -/
structure Blocking where
  can_delete : Option RBUser → Bool → Bool
  can_edit : Option RBUser → Bool → Bool

/-- The dict of `user` and `admin` entries returned by the `_get_permissions`
hooks; `P` is the shape of one per-method dict. -/
structure PermDump (P : Type) where
  user : P
  admin : Option P
deriving DecidableEq

/-- Per-method permission dict of `ReservationDetailsSchema`. -/
structure ReservationPerms where
  can_accept : Bool
  can_cancel : Bool
  can_delete : Bool
  can_edit : Bool
  can_reject : Bool
deriving DecidableEq

/-- Per-method permission dict of
`ReservationOccurrenceSchemaWithPermissions`. -/
structure OccurrencePerms where
  can_cancel : Bool
  can_reject : Bool
deriving DecidableEq

/-- Per-method permission dict of `BlockingSchema`. -/
structure BlockingPerms where
  can_delete : Bool
  can_edit : Bool
deriving DecidableEq

namespace ReservationEditLogSchema

/-- Newest-first order on dumped edit logs: `sorted` with the `timestamp` key, reversed. -/
def byTimestampDesc (a b : ReservationEditLog) : Prop := b.timestamp ≤ a.timestamp

instance : DecidableRel byTimestampDesc := fun a b =>
  inferInstanceAs (Decidable (b.timestamp ≤ a.timestamp))

instance : IsTotal ReservationEditLog byTimestampDesc :=
  ⟨fun a b => (le_total b.timestamp a.timestamp)⟩

instance : IsTrans ReservationEditLog byTimestampDesc :=
  ⟨fun _ _ _ h h' => le_trans h' h⟩

/-- `ReservationEditLogSchema.sort_logs`: when dumping many, sort the dumped
entries by timestamp, newest first; otherwise return the data unchanged. -/
def sort_logs (many : Bool) (data : List ReservationEditLog) : List ReservationEditLog :=
  if many then List.insertionSort byTimestampDesc data else data

end ReservationEditLogSchema

namespace ReservationSchema

/-- The fields of a `ReservationSchema` dump that the post-dump hooks read or
write (the other dumped fields are copied verbatim from the model and never
touched again). `booked_for_name` is an `Option` because the hook can null
it. -/
structure Dump where
  booked_for_name : Option String
  repeat_frequency : RepeatFrequency
  recurrence_weekdays : Option (List String)
deriving DecidableEq

/-- The marshmallow field dump of `ReservationSchema`, before post-dump
hooks. -/
def baseDump (b : Reservation) : Dump :=
  { booked_for_name := some b.booked_for_name
    repeat_frequency := b.repeat_frequency
    recurrence_weekdays := b.recurrence_weekdays }

/-- `ReservationSchema._hide_sensitive_data`: null `booked_for_name` when the
session user cannot see the details of the booking. -/
def _hide_sensitive_data (sessionUser : Option RBUser) (data : Dump) (booking : Reservation) : Dump :=
  if booking.can_see_details sessionUser then data
  else { data with booked_for_name := none }

/-- `ReservationSchema._add_missing_weekdays`: backfill the recurrence
weekdays of a legacy weekly booking from its start date. -/
def _add_missing_weekdays (data : Dump) (booking : Reservation) : Dump :=
  if booking.repeat_frequency = RepeatFrequency.week ∧ booking.recurrence_weekdays = none then
    { data with recurrence_weekdays := some [weekdayName booking.start_dt] }
  else data

/-- Dump a reservation through `ReservationSchema`: field dump, then the two
post-dump hooks (they touch disjoint keys, so their order is immaterial). -/
def dump (sessionUser : Option RBUser) (b : Reservation) : Dump :=
  _add_missing_weekdays (_hide_sensitive_data sessionUser (baseDump b) b) b

end ReservationSchema

namespace ReservationDetailsSchema

/-- The fields of a `ReservationDetailsSchema` dump that the hooks read or
write. `internal_note = none` means the key was deleted; the three
user/log fields are `none` when nulled by `_hide_sensitive_data`. -/
structure Dump where
  booked_for_user : Option RBUser
  created_by_user : Option RBUser
  edit_logs : Option (List ReservationEditLog)
  internal_note : Option String
  permissions : PermDump ReservationPerms
  recurrence_weekdays : Option (List String)
  repetition : RepeatFrequency × Nat × Option (List String)
deriving DecidableEq

/-- `ReservationDetailsSchema._get_permissions`: per-method results with
`allow_admin=False` under `user`, and under `admin` either `None` (user is
no room-booking admin) or the results with the default `allow_admin=True`. -/
def _get_permissions (sessionUser : Option RBUser) (booking : Reservation) : PermDump ReservationPerms :=
  let user_permissions : ReservationPerms :=
    { can_accept := booking.can_accept sessionUser false
      can_cancel := booking.can_cancel sessionUser false
      can_delete := booking.can_delete sessionUser false
      can_edit := booking.can_edit sessionUser false
      can_reject := booking.can_reject sessionUser false }
  let admin_permissions : Option ReservationPerms :=
    if rb_is_admin sessionUser then
      some { can_accept := booking.can_accept sessionUser true
             can_cancel := booking.can_cancel sessionUser true
             can_delete := booking.can_delete sessionUser true
             can_edit := booking.can_edit sessionUser true
             can_reject := booking.can_reject sessionUser true }
    else none
  { user := user_permissions, admin := admin_permissions }

/-- The marshmallow field dump of `ReservationDetailsSchema`, before post-dump
hooks. The nested `edit_logs` list goes through `ReservationEditLogSchema`
with `many=True`, so its `sort_logs` hook has already run. -/
def baseDump (sessionUser : Option RBUser) (b : Reservation) : Dump :=
  { booked_for_user := some b.booked_for_user
    created_by_user := some b.created_by_user
    edit_logs := some (ReservationEditLogSchema.sort_logs true b.edit_logs)
    internal_note := some b.internal_note
    permissions := _get_permissions sessionUser b
    recurrence_weekdays := b.recurrence_weekdays
    repetition := b.repetition }

/-- `ReservationDetailsSchema._hide_sensitive_data`: delete `internal_note`
unless the user can manage the room of the booking; null the user and
edit-log fields unless the user can see the details of the booking. -/
def _hide_sensitive_data (sessionUser : Option RBUser) (data : Dump) (booking : Reservation) : Dump :=
  let data :=
    if booking.room_can_manage sessionUser then data
    else { data with internal_note := none }
  if booking.can_see_details sessionUser then data
  else { data with booked_for_user := none, created_by_user := none, edit_logs := none }

/-- `ReservationDetailsSchema._add_missing_weekdays`: backfill the recurrence
weekdays of a legacy weekly booking from its start date, both in the
`recurrence_weekdays` key and in the third component of `repetition`. -/
def _add_missing_weekdays (data : Dump) (booking : Reservation) : Dump :=
  if booking.repeat_frequency = RepeatFrequency.week ∧ booking.recurrence_weekdays = none then
    let weekdays := [weekdayName booking.start_dt]
    { data with recurrence_weekdays := some weekdays
                repetition := (data.repetition.1, data.repetition.2.1, some weekdays) }
  else data

/-- Dump a reservation through `ReservationDetailsSchema`: field dump, then
`_hide_sensitive_data`, then `_add_missing_weekdays` (hook order as declared;
they touch disjoint keys). -/
def dump (sessionUser : Option RBUser) (b : Reservation) : Dump :=
  _add_missing_weekdays (_hide_sensitive_data sessionUser (baseDump sessionUser b) b) b

end ReservationDetailsSchema

namespace ReservationOccurrenceSchemaWithPermissions

/-- `ReservationOccurrenceSchemaWithPermissions._get_permissions`. -/
def _get_permissions (sessionUser : Option RBUser) (occurrence : ReservationOccurrence) : PermDump OccurrencePerms :=
  let user_permissions : OccurrencePerms :=
    { can_cancel := occurrence.can_cancel sessionUser false
      can_reject := occurrence.can_reject sessionUser false }
  let admin_permissions : Option OccurrencePerms :=
    if rb_is_admin sessionUser then
      some { can_cancel := occurrence.can_cancel sessionUser true
             can_reject := occurrence.can_reject sessionUser true }
    else none
  { user := user_permissions, admin := admin_permissions }

end ReservationOccurrenceSchemaWithPermissions

namespace BlockingSchema

/-- `BlockingSchema._get_permissions`. -/
def _get_permissions (sessionUser : Option RBUser) (blocking : Blocking) : PermDump BlockingPerms :=
  let user_permissions : BlockingPerms :=
    { can_delete := blocking.can_delete sessionUser false
      can_edit := blocking.can_edit sessionUser false }
  let admin_permissions : Option BlockingPerms :=
    if rb_is_admin sessionUser then
      some { can_delete := blocking.can_delete sessionUser true
             can_edit := blocking.can_edit sessionUser true }
    else none
  { user := user_permissions, admin := admin_permissions }

end BlockingSchema

namespace CreateBookingSchema

/-- `CreateBookingSchema.validate_dts`: a schema-level validator run once the
individual fields validated. -/
def validate_dts (start_dt end_dt : PyDateTime) : Except String Unit :=
  if start_dt ≥ end_dt then Except.error ("Booking cannot end before it starts")
  else Except.ok ()

/-- The loaded fields touched by the `_weekdays_only_weekly` post-load hook. -/
structure LoadedData where
  repeat_frequency : RepeatFrequency
  recurrence_weekdays : Option (List String)
deriving DecidableEq

/-- `CreateBookingSchema._weekdays_only_weekly` (post-load): discard any
recurrence weekdays when the booking does not repeat weekly. -/
def _weekdays_only_weekly (data : LoadedData) : LoadedData :=
  if data.repeat_frequency ≠ RepeatFrequency.week then
    { data with recurrence_weekdays := none }
  else data

end CreateBookingSchema

/-- `EventType` enum from `indico.modules.events.models.events`. -/
inductive EventType where
  | lecture
  | meeting
  | conference
deriving DecidableEq

namespace ReminderForm

/-- The aspects of the event that `ReminderForm.__init__` queries:
its type, `RegistrationForm.query.with_parent(event).count()` and
`RegistrationTag.query.with_parent(event).has_rows()`. -/
structure ReminderEvent where
  type_ : EventType
  regform_count : Nat
  has_tags : Bool
deriving DecidableEq

/-- Which of the conditionally deleted form fields are present. -/
structure PresentFields where
  include_summary : Bool
  forms : Bool
  tags : Bool
  all_tags : Bool
deriving DecidableEq

/-- `ReminderForm.__init__`: every field starts out present (declared on the
class) and the constructor deletes `include_summary` for lectures, `forms`
unless the event has more than one registration form, and `tags`/`all_tags`
unless the event has registration tags. -/
def init (e : ReminderEvent) : PresentFields :=
  let f0 : PresentFields := ⟨true, true, true, true⟩
  let f1 := if e.type_ = EventType.lecture then { f0 with include_summary := false } else f0
  let f2 := if e.regform_count > 1 then f1 else { f1 with forms := false }
  if e.has_tags then f2 else { f2 with tags := false, all_tags := false }

/-- The recipient-related form data read by the three recipient validators. -/
structure RecipientData where
  recipients : List String
  send_to_participants : Bool
  send_to_speakers : Bool
deriving DecidableEq

/-- The message every recipient validator raises with. -/
def recipientError : String := "At least one type of recipient is required."

/-- `ReminderForm.validate_recipients`. -/
def validate_recipients (f : RecipientData) : Except String Unit :=
  if f.recipients.isEmpty && !f.send_to_participants && !f.send_to_speakers then
    Except.error recipientError
  else Except.ok ()

/-- `ReminderForm.validate_send_to_participants`. -/
def validate_send_to_participants (f : RecipientData) : Except String Unit :=
  if !f.send_to_participants && f.recipients.isEmpty && !f.send_to_speakers then
    Except.error recipientError
  else Except.ok ()

/-- `ReminderForm.validate_send_to_speakers`. -/
def validate_send_to_speakers (f : RecipientData) : Except String Unit :=
  if !f.send_to_speakers && f.recipients.isEmpty && !f.send_to_participants then
    Except.error recipientError
  else Except.ok ()

/-- The three choices of the `schedule_type` radio field. -/
inductive ScheduleType where
  | relative
  | absolute
  | now
deriving DecidableEq

/-- The schedule-related form data: the selected type, the (possibly empty)
`absolute_dt` and `relative_delta` fields, and the start datetime of the
event the form was constructed for.  `relative_delta` is a `timedelta` in
minutes. -/
structure ScheduleData where
  schedule_type : ScheduleType
  absolute_dt : Option PyDateTime
  relative_delta : Option Int
  event_start_dt : PyDateTime
deriving DecidableEq

/-- `ReminderForm.scheduled_dt` (a `generated_data` field): the absolute
datetime, the event start minus the offset, or the current time, depending on
the schedule type; `none` when the relevant field is empty. -/
def scheduled_dt (f : ScheduleData) (now : PyDateTime) : Option PyDateTime :=
  match f.schedule_type with
  | ScheduleType.absolute =>
    match f.absolute_dt with
    | none => none
    | some dt => some dt
  | ScheduleType.relative =>
    match f.relative_delta with
    | none => none
    | some delta => some (f.event_start_dt - delta)
  | ScheduleType.now => some now

/-- `ReminderForm.validate_schedule_type`: accept the `now` type outright; otherwise
reject when the computed schedule datetime exists and falls on a calendar day
strictly before today (a time earlier today is deliberately allowed). -/
def validate_schedule_type (f : ScheduleData) (now : PyDateTime) : Except String Unit :=
  if f.schedule_type = ScheduleType.now then Except.ok ()
  else
    match scheduled_dt f now with
    | some dt =>
      if pyDate dt < pyDate now then Except.error ("The specified date is in the past")
      else Except.ok ()
    | none => Except.ok ()

end ReminderForm

/-- A `Room` as `RoomLegacyAPISchema` sees it: one dumped value per field of
its `Meta.fields` list.  The value type is abstract: the key renaming never
looks at values. -/
structure Room (V : Type) where
  id : V
  building : V
  name : V
  floor : V
  longitude : V
  latitude : V
  number : V
  location_name : V
  full_name : V

namespace RoomLegacyAPISchema

/-- The field dump of `RoomLegacyAPISchema` as a map from key to
optional value (`none` = key absent), before the post-dump hook. -/
def baseDump (r : Room V) : String → Option V := fun k =>
  if k = "id" then some r.id
  else if k = "building" then some r.building
  else if k = "name" then some r.name
  else if k = "floor" then some r.floor
  else if k = "longitude" then some r.longitude
  else if k = "latitude" then some r.latitude
  else if k = "number" then some r.number
  else if k = "location_name" then some r.location_name
  else if k = "full_name" then some r.full_name
  else none

/-- One `data[new] = data.pop(old)` step on a dict modelled as a map to
optional values. -/
def popSet (old new : String) (d : String → Option V) : String → Option V := fun k =>
  if k = new then d old
  else if k = old then none
  else d k

/-- `RoomLegacyAPISchema._rename_keys`: move `full_name` to `fullName`,
`location_name` to `location` and `number` to `roomNr`. -/
def _rename_keys (d : String → Option V) : String → Option V :=
  popSet ("number") ("roomNr") (popSet ("location_name") ("location") (popSet ("full_name") ("fullName") d))

/-- Dump a room through `RoomLegacyAPISchema`: field dump, then the key
renaming hook. -/
def dump (r : Room V) : String → Option V := _rename_keys (baseDump r)

end RoomLegacyAPISchema

/-! Helper lemmas: each post-dump hook leaves the keys it does not mention
untouched. -/

lemma ReservationSchema.hide_preserves_weekdays (su : Option RBUser) (d : ReservationSchema.Dump)
    (b : Reservation) :
    (ReservationSchema._hide_sensitive_data su d b).recurrence_weekdays = d.recurrence_weekdays := by
  unfold ReservationSchema._hide_sensitive_data
  split <;> rfl

lemma ReservationSchema.addwd_preserves_name (d : ReservationSchema.Dump) (b : Reservation) :
    (ReservationSchema._add_missing_weekdays d b).booked_for_name = d.booked_for_name := by
  unfold ReservationSchema._add_missing_weekdays
  split <;> rfl

lemma ReservationDetailsSchema.hide_preserves_recurrence (su : Option RBUser)
    (d : ReservationDetailsSchema.Dump) (b : Reservation) :
    (ReservationDetailsSchema._hide_sensitive_data su d b).recurrence_weekdays
      = d.recurrence_weekdays
    ∧ (ReservationDetailsSchema._hide_sensitive_data su d b).repetition = d.repetition := by
  unfold ReservationDetailsSchema._hide_sensitive_data
  dsimp only
  split <;> split <;> exact ⟨rfl, rfl⟩

lemma ReservationDetailsSchema.addwd_preserves_sensitive (d : ReservationDetailsSchema.Dump)
    (b : Reservation) :
    (ReservationDetailsSchema._add_missing_weekdays d b).booked_for_user = d.booked_for_user
    ∧ (ReservationDetailsSchema._add_missing_weekdays d b).created_by_user = d.created_by_user
    ∧ (ReservationDetailsSchema._add_missing_weekdays d b).edit_logs = d.edit_logs
    ∧ (ReservationDetailsSchema._add_missing_weekdays d b).internal_note = d.internal_note := by
  unfold ReservationDetailsSchema._add_missing_weekdays
  split <;> exact ⟨rfl, rfl, rfl, rfl⟩

/-! The claims. -/

/-- C1: dumping a weekly reservation with `recurrence_weekdays` unset through
`ReservationSchema` or `ReservationDetailsSchema` backfills the dumped
`recurrence_weekdays` with the one-element list holding `WEEKDAYS` at the
weekday of the start date of the reservation; `ReservationDetailsSchema` also
replaces the third component of the dumped `repetition` tuple with that list;
any other reservation keeps its dumped `recurrence_weekdays` (and
`repetition`) unchanged. -/
theorem reservation_add_missing_weekdays_spec (su : Option RBUser) (b : Reservation) :
    (ReservationSchema.dump su b).recurrence_weekdays
      = (if b.repeat_frequency = RepeatFrequency.week ∧ b.recurrence_weekdays = none
         then some [weekdayName b.start_dt] else b.recurrence_weekdays)
    ∧ (ReservationDetailsSchema.dump su b).recurrence_weekdays
      = (if b.repeat_frequency = RepeatFrequency.week ∧ b.recurrence_weekdays = none
         then some [weekdayName b.start_dt] else b.recurrence_weekdays)
    ∧ (ReservationDetailsSchema.dump su b).repetition
      = (if b.repeat_frequency = RepeatFrequency.week ∧ b.recurrence_weekdays = none
         then (b.repetition.1, b.repetition.2.1, some [weekdayName b.start_dt])
         else b.repetition) := by
  refine ⟨?_, ?_, ?_⟩
  · unfold ReservationSchema.dump ReservationSchema._add_missing_weekdays
    split
    · rfl
    · exact (ReservationSchema.hide_preserves_weekdays su _ b)
  · unfold ReservationDetailsSchema.dump ReservationDetailsSchema._add_missing_weekdays
    split
    · rfl
    · exact (ReservationDetailsSchema.hide_preserves_recurrence su _ b).1
  · unfold ReservationDetailsSchema.dump ReservationDetailsSchema._add_missing_weekdays
    split
    · dsimp only
      rw [(ReservationDetailsSchema.hide_preserves_recurrence su _ b).2]
      rfl
    · exact (ReservationDetailsSchema.hide_preserves_recurrence su _ b).2

/-- C2: each of the three recipient validators of `ReminderForm` raises
`At least one type of recipient is required.` exactly when the recipients
list is empty and both checkboxes are false, and succeeds otherwise. -/
theorem reminder_recipient_validators_spec (f : ReminderForm.RecipientData) :
    (ReminderForm.validate_recipients f = Except.error ReminderForm.recipientError
      ↔ (f.recipients = [] ∧ f.send_to_participants = false ∧ f.send_to_speakers = false))
    ∧ (ReminderForm.validate_send_to_participants f = Except.error ReminderForm.recipientError
      ↔ (f.recipients = [] ∧ f.send_to_participants = false ∧ f.send_to_speakers = false))
    ∧ (ReminderForm.validate_send_to_speakers f = Except.error ReminderForm.recipientError
      ↔ (f.recipients = [] ∧ f.send_to_participants = false ∧ f.send_to_speakers = false))
    ∧ (ReminderForm.validate_recipients f = Except.ok ()
      ↔ (f.recipients.isEmpty = false ∨ f.send_to_participants = true ∨ f.send_to_speakers = true))
    ∧ (ReminderForm.validate_send_to_participants f = Except.ok ()
      ↔ (f.recipients.isEmpty = false ∨ f.send_to_participants = true ∨ f.send_to_speakers = true))
    ∧ (ReminderForm.validate_send_to_speakers f = Except.ok ()
      ↔ (f.recipients.isEmpty = false ∨ f.send_to_participants = true ∨ f.send_to_speakers = true)) := by
  obtain ⟨r, p, s⟩ := f
  cases p <;> cases s <;> cases r <;>
    simp [ReminderForm.validate_recipients, ReminderForm.validate_send_to_participants,
          ReminderForm.validate_send_to_speakers]

/-- C3: `CreateBookingSchema.validate_dts` raises
`Booking cannot end before it starts` exactly when the start is not
strictly before the end; in particular a booking whose start equals its end
is rejected. -/
theorem create_booking_validate_dts_spec (s e : PyDateTime) :
    (CreateBookingSchema.validate_dts s e = Except.error ("Booking cannot end before it starts")
      ↔ e ≤ s)
    ∧ CreateBookingSchema.validate_dts s s
        = Except.error ("Booking cannot end before it starts")
    ∧ (CreateBookingSchema.validate_dts s e = Except.ok () ↔ s < e) := by
  unfold CreateBookingSchema.validate_dts
  refine ⟨?_, ?_, ?_⟩
  · split <;> rename_i h <;> simp <;> first | exact h | exact lt_of_not_ge h
  · simp
  · split <;> rename_i h <;> simp <;> first | exact h | exact lt_of_not_ge h

/-- C4: after `ReminderForm.__init__`, `include_summary` is present iff the
event is not a lecture, `forms` is present iff the event has more than one
registration form, and `tags`/`all_tags` are present iff the event has
registration tags. -/
theorem reminder_form_init_fields_spec (e : ReminderForm.ReminderEvent) :
    ((ReminderForm.init e).include_summary = true ↔ e.type_ ≠ EventType.lecture)
    ∧ ((ReminderForm.init e).forms = true ↔ 1 < e.regform_count)
    ∧ ((ReminderForm.init e).tags = true ↔ e.has_tags = true)
    ∧ ((ReminderForm.init e).all_tags = true ↔ e.has_tags = true) := by
  obtain ⟨t, n, g⟩ := e
  cases t <;> cases g <;> by_cases h : 1 < n <;>
    simp [ReminderForm.init, h]

/-- Witness for C4 at a concrete event (a meeting with two registration forms
and tags: every conditional field is kept). -/
theorem reminder_form_init_fields_spec_witness :
    (ReminderForm.init ⟨EventType.meeting, 2, true⟩).include_summary = true :=
  (reminder_form_init_fields_spec ⟨EventType.meeting, 2, true⟩).1.mpr (by decide)

/-- C5: the `permissions` dict built by `ReservationDetailsSchema`,
`ReservationOccurrenceSchemaWithPermissions` and `BlockingSchema` maps, under
`user`, each permission method to its result with `allow_admin=False`, and
under `admin` to `None` when the session user is no room-booking admin and
otherwise to the result of each method with admin rights allowed. -/
theorem schema_get_permissions_spec (su : Option RBUser) (b : Reservation)
    (o : ReservationOccurrence) (bl : Blocking) :
    (ReservationDetailsSchema._get_permissions su b).user
      = { can_accept := b.can_accept su false, can_cancel := b.can_cancel su false,
          can_delete := b.can_delete su false, can_edit := b.can_edit su false,
          can_reject := b.can_reject su false }
    ∧ (ReservationDetailsSchema._get_permissions su b).admin
      = (if rb_is_admin su then
           some { can_accept := b.can_accept su true, can_cancel := b.can_cancel su true,
                  can_delete := b.can_delete su true, can_edit := b.can_edit su true,
                  can_reject := b.can_reject su true }
         else none)
    ∧ (ReservationOccurrenceSchemaWithPermissions._get_permissions su o).user
      = { can_cancel := o.can_cancel su false, can_reject := o.can_reject su false }
    ∧ (ReservationOccurrenceSchemaWithPermissions._get_permissions su o).admin
      = (if rb_is_admin su then
           some { can_cancel := o.can_cancel su true, can_reject := o.can_reject su true }
         else none)
    ∧ (BlockingSchema._get_permissions su bl).user
      = { can_delete := bl.can_delete su false, can_edit := bl.can_edit su false }
    ∧ (BlockingSchema._get_permissions su bl).admin
      = (if rb_is_admin su then
           some { can_delete := bl.can_delete su true, can_edit := bl.can_edit su true }
         else none) :=
  ⟨rfl, rfl, rfl, rfl, rfl, rfl⟩

/-- C6: `RoomLegacyAPISchema` moves the `full_name`,
`location_name` and `number` values to the keys `fullName`, `location` and
`roomNr`, drops the snake_case keys, and keeps the six remaining keys with
their values. -/
theorem room_legacy_rename_keys_spec (V : Type) (r : Room V) :
    RoomLegacyAPISchema.dump r ("fullName") = RoomLegacyAPISchema.baseDump r ("full_name")
    ∧ RoomLegacyAPISchema.baseDump r ("full_name") = some r.full_name
    ∧ RoomLegacyAPISchema.dump r ("location") = RoomLegacyAPISchema.baseDump r ("location_name")
    ∧ RoomLegacyAPISchema.baseDump r ("location_name") = some r.location_name
    ∧ RoomLegacyAPISchema.dump r ("roomNr") = RoomLegacyAPISchema.baseDump r ("number")
    ∧ RoomLegacyAPISchema.baseDump r ("number") = some r.number
    ∧ RoomLegacyAPISchema.dump r ("full_name") = none
    ∧ RoomLegacyAPISchema.dump r ("location_name") = none
    ∧ RoomLegacyAPISchema.dump r ("number") = none
    ∧ RoomLegacyAPISchema.dump r ("id") = some r.id
    ∧ RoomLegacyAPISchema.dump r ("building") = some r.building
    ∧ RoomLegacyAPISchema.dump r ("name") = some r.name
    ∧ RoomLegacyAPISchema.dump r ("floor") = some r.floor
    ∧ RoomLegacyAPISchema.dump r ("longitude") = some r.longitude
    ∧ RoomLegacyAPISchema.dump r ("latitude") = some r.latitude := by
  simp [RoomLegacyAPISchema.dump, RoomLegacyAPISchema._rename_keys, RoomLegacyAPISchema.popSet,
        RoomLegacyAPISchema.baseDump]

/-- C7: `ReminderForm.validate_schedule_type` raises
`The specified date is in the past` exactly when the schedule type is not
`now` and the computed schedule datetime exists and falls on a calendar day
strictly before today; with the `now` schedule type it never raises. -/
theorem reminder_validate_schedule_type_spec (f : ReminderForm.ScheduleData) (now : PyDateTime) :
    (ReminderForm.validate_schedule_type f now = Except.error ("The specified date is in the past")
      ↔ (f.schedule_type ≠ ReminderForm.ScheduleType.now
         ∧ ∃ dt, ReminderForm.scheduled_dt f now = some dt ∧ pyDate dt < pyDate now))
    ∧ ReminderForm.validate_schedule_type
        ⟨ReminderForm.ScheduleType.now, f.absolute_dt, f.relative_delta, f.event_start_dt⟩ now
      = Except.ok () := by
  constructor
  · unfold ReminderForm.validate_schedule_type
    split <;> rename_i h
    · simp [h]
    · cases hd : ReminderForm.scheduled_dt f now with
      | none => simp [hd, h]
      | some dt =>
        by_cases hlt : pyDate dt < pyDate now <;> simp [h, hlt]
  · rfl

/-- Witness for C7: an absolute reminder a day in the past is rejected. -/
theorem reminder_validate_schedule_type_spec_witness :
    ReminderForm.validate_schedule_type
      ⟨ReminderForm.ScheduleType.absolute, some (-1440), none, 0⟩ 1440
      = Except.error ("The specified date is in the past") :=
  (reminder_validate_schedule_type_spec
      ⟨ReminderForm.ScheduleType.absolute, some (-1440), none, 0⟩ 1440).1.mpr
    ⟨by decide, ⟨-1440, by decide, by decide⟩⟩

/-- C8: dumping edit logs with `many=True` yields a permutation of the dumped
entries that is sorted by timestamp, newest first; with `many=False` the data
is returned unchanged. -/
theorem edit_log_sort_logs_spec (logs : List ReservationEditLog) :
    List.Perm (ReservationEditLogSchema.sort_logs true logs) logs
    ∧ List.Sorted (fun a b => b.timestamp ≤ a.timestamp)
        (ReservationEditLogSchema.sort_logs true logs)
    ∧ ReservationEditLogSchema.sort_logs false logs = logs := by
  refine ⟨?_, ?_, rfl⟩
  · exact List.perm_insertionSort ReservationEditLogSchema.byTimestampDesc logs
  · exact List.sorted_insertionSort ReservationEditLogSchema.byTimestampDesc logs

/-- C9: a user who cannot see the details of a booking gets `booked_for_name`
nulled by `ReservationSchema` and `booked_for_user`/`created_by_user`/
`edit_logs` nulled by `ReservationDetailsSchema`; `internal_note` is removed
exactly when the user cannot manage the room of the booking; a user with both
rights sees all these fields as dumped. -/
theorem reservation_hide_sensitive_data_spec (su : Option RBUser) (b : Reservation) :
    (ReservationSchema.dump su b).booked_for_name
      = (if b.can_see_details su then some b.booked_for_name else none)
    ∧ (ReservationDetailsSchema.dump su b).booked_for_user
      = (if b.can_see_details su then some b.booked_for_user else none)
    ∧ (ReservationDetailsSchema.dump su b).created_by_user
      = (if b.can_see_details su then some b.created_by_user else none)
    ∧ (ReservationDetailsSchema.dump su b).edit_logs
      = (if b.can_see_details su then
           some (ReservationEditLogSchema.sort_logs true b.edit_logs)
         else none)
    ∧ (ReservationDetailsSchema.dump su b).internal_note
      = (if b.room_can_manage su then some b.internal_note else none) := by
  refine ⟨?_, ?_, ?_, ?_, ?_⟩
  · unfold ReservationSchema.dump
    rw [ReservationSchema.addwd_preserves_name]
    unfold ReservationSchema._hide_sensitive_data ReservationSchema.baseDump
    split <;> rename_i h <;> simp [h]
  all_goals
    unfold ReservationDetailsSchema.dump
    first
      | rw [(ReservationDetailsSchema.addwd_preserves_sensitive _ b).1]
      | rw [(ReservationDetailsSchema.addwd_preserves_sensitive _ b).2.1]
      | rw [(ReservationDetailsSchema.addwd_preserves_sensitive _ b).2.2.1]
      | rw [(ReservationDetailsSchema.addwd_preserves_sensitive _ b).2.2.2]
  all_goals
    unfold ReservationDetailsSchema._hide_sensitive_data ReservationDetailsSchema.baseDump
    dsimp only
    split <;> rename_i h1 <;> try split <;> rename_i h2
  all_goals simp_all

/-- C10: after the post-load hook of `CreateBookingSchema`, a booking that does not
repeat weekly never carries recurrence weekdays (a supplied list is silently
discarded, and the repeat frequency itself is untouched). -/
theorem create_booking_weekdays_only_weekly_spec (d : CreateBookingSchema.LoadedData) :
    (CreateBookingSchema._weekdays_only_weekly d).repeat_frequency = d.repeat_frequency
    ∧ ((CreateBookingSchema._weekdays_only_weekly d).repeat_frequency = RepeatFrequency.week
       ∨ (CreateBookingSchema._weekdays_only_weekly d).recurrence_weekdays = none) := by
  unfold CreateBookingSchema._weekdays_only_weekly
  split <;> rename_i h
  · exact ⟨rfl, Or.inr rfl⟩
  · exact ⟨rfl, Or.inl (not_ne_iff.mp h)⟩
